import Mathlib

/-!
Shallow embedding of the series-construction and caching pipeline of
`src/app.py` (a Streamlit sensor-dashboard), together with proofs of the
specification's claims about it.

The embedding models:
* the marker palette and cyclic marker assignment (`get_marker_generator`,
  main lines 248-252 and 299-304);
* the wide-to-long reshape performed with `DataFrame.melt` for the tilt
  (TIS) and secondary (VGS) readings (main lines 236-246 and 285-297);
* the data-loading functions `load_data`, `load_vgs_data`,
  `get_device_ids` with their error-handling policies (lines 77-182),
  where the database outcome is passed in explicitly as an
  `Except DbError` value;
* the control flow of `main` up to the reading fetches (lines 194-227);
* the TTL cache semantics of the caching decorator applied at the three
  call sites (modelled from the spec, see `cachedCall`).

Numeric reading values are modelled as rationals: the pipeline only moves
them around, it never computes with them.
-/

/-- Lexicographic comparison of character lists by code point, the order
Python's `sorted` uses on strings (`sorted(long_df["series"].unique())`,
app.py line 249). -/
def lexLe : List Char → List Char → Bool
  | [], _ => true
  | _ :: _, [] => false
  | a :: as, b :: bs => if a < b then true else if b < a then false else lexLe as bs

/-- String comparison used by the canonical sort of series keys. -/
def strLe (a b : String) : Bool := lexLe a.data b.data

/-- The propositional form of `strLe`. -/
abbrev strLeP (a b : String) : Prop := strLe a b = true

instance : DecidableRel strLeP := fun a b => Bool.decEq (strLe a b) true

/-- The fixed marker palette of `get_marker_generator` (app.py lines 68-71).
Note it holds eleven shapes. -/
def marker_shapes : List String :=
  ["circle", "square", "diamond", "triangle-up", "triangle-down",
   "cross", "x", "star", "hexagon", "pentagon", "hourglass"]

/-- The symbol the cycling iterator returned by `get_marker_generator`
yields on its i-th `next` call (app.py line 72): the palette is traversed
cyclically. -/
def cycleMarker (i : Nat) : String :=
  marker_shapes.getD (i % marker_shapes.length) ""

/-- The canonical order in which main's assignment loop walks the series
keys: the distinct keys (`unique()`), sorted (app.py line 249). -/
def sortedUnique (keys : List String) : List String :=
  List.insertionSort strLeP keys.dedup

/-- Marker assignment of app.py lines 248-252: walk the sorted distinct
series keys and pair each with the next symbol of the cycling iterator. -/
def assignMarkers (keys : List String) : List (String × String) :=
  (List.range (sortedUnique keys).length).map
    (fun i => ((sortedUnique keys).getD i "", cycleMarker i))

/-- Per-character uppercasing, modelling pandas `.str.upper()`
(app.py lines 237 and 286). -/
def strUpper (s : String) : String := String.mk (s.data.map Char.toUpper)

/-- A raw tilt (TIS) reading row: `DataTime, name, x_value, y_value`
(app.py query lines 91-96). -/
structure TiltRow where
  dataTime : String
  name : String
  x_value : ℚ
  y_value : ℚ
deriving DecidableEq, Inhabited

/-- A raw secondary (VGS) reading row: `DataTime, name, value1, value2`
(app.py query lines 131-136). -/
structure VgsRow where
  dataTime : String
  name : String
  value1 : ℚ
  value2 : ℚ
deriving DecidableEq, Inhabited

/-- One record of the long-format output: timestamp, series key, value. -/
structure SeriesPoint where
  dataTime : String
  series : String
  value : ℚ
deriving DecidableEq, Inhabited

/-- One record of the intermediate melted frame: the id columns, the
variable-name column and the value column produced by `DataFrame.melt`. -/
structure MeltedRow where
  dataTime : String
  label : String
  varcol : String
  value : ℚ
deriving DecidableEq, Inhabited

/-- The melt of the tilt frame (app.py lines 239-244): `melt` stacks one
block per entry of `value_vars`, each block keeping the input row order,
so the output is column-major: all `x_value` records first, then all
`y_value` records. -/
def meltTilt (rows : List TiltRow) : List MeltedRow :=
  rows.map (fun r => ⟨r.dataTime, strUpper r.name, "x_value", r.x_value⟩) ++
  rows.map (fun r => ⟨r.dataTime, strUpper r.name, "y_value", r.y_value⟩)

/-- The axis renaming of app.py line 245:
`.map({"x_value": "X", "y_value": "Y"})`. -/
def axisMap : String → String
  | "x_value" => "X"
  | "y_value" => "Y"
  | s => s

/-- The tilt reshape of app.py lines 236-246: melt, rename the axis, and
build the series key `TI + "_" + axis` from the uppercased name. -/
def reshapeTilt (rows : List TiltRow) : List SeriesPoint :=
  (meltTilt rows).map (fun m => ⟨m.dataTime, m.label ++ "_" ++ axisMap m.varcol, m.value⟩)

/-- The melt of the VGS frame (app.py lines 289-294), again column-major:
all `value1` records, then all `value2` records. -/
def meltVgs (rows : List VgsRow) : List MeltedRow :=
  rows.map (fun r => ⟨r.dataTime, strUpper r.name, "value1", r.value1⟩) ++
  rows.map (fun r => ⟨r.dataTime, strUpper r.name, "value2", r.value2⟩)

/-- The VGS reshape of app.py lines 285-297: the series key is
`Name + "_" + Channel` with the raw channel name (no renaming). -/
def reshapeVgs (rows : List VgsRow) : List SeriesPoint :=
  (meltVgs rows).map (fun m => ⟨m.dataTime, m.label ++ "_" ++ m.varcol, m.value⟩)

/-- Reference definition written from the spec's ordering sentence for the
tilt kind: "output order is the row order interleaved by declared channel
order (x before y)" — row-major, each row emitting its x point then its
y point. Used to compare the spec's claimed ordering with the code's. -/
def reshapeTiltInterleaved (rows : List TiltRow) : List SeriesPoint :=
  rows.flatMap (fun r =>
    [⟨r.dataTime, strUpper r.name ++ "_" ++ "X", r.x_value⟩,
     ⟨r.dataTime, strUpper r.name ++ "_" ++ "Y", r.y_value⟩])

/-- Reference definition of the amended ordering for the tilt kind:
declared-channel-major: all x points in row order, then all y points in
row order. -/
def reshapeTiltChannelMajor (rows : List TiltRow) : List SeriesPoint :=
  rows.map (fun r => ⟨r.dataTime, strUpper r.name ++ "_" ++ "X", r.x_value⟩) ++
  rows.map (fun r => ⟨r.dataTime, strUpper r.name ++ "_" ++ "Y", r.y_value⟩)

/-- Reference definition of the amended ordering for the secondary kind:
all value1 points in row order, then all value2 points in row order. -/
def reshapeVgsChannelMajor (rows : List VgsRow) : List SeriesPoint :=
  rows.map (fun r => ⟨r.dataTime, strUpper r.name ++ "_" ++ "value1", r.value1⟩) ++
  rows.map (fun r => ⟨r.dataTime, strUpper r.name ++ "_" ++ "value2", r.value2⟩)

/-- Characters admitted by the character class `[A-Z0-9]` of the spec's
series-key regular expression. -/
def isKeyChar (c : Char) : Bool :=
  (decide ('A' ≤ c) && decide (c ≤ 'Z')) || (decide ('0' ≤ c) && decide (c ≤ '9'))

/-- Matcher for the reversed character list of a candidate series key:
the key must end in `_X` or `_Y` preceded by a non-empty `[A-Z0-9]+` run. -/
def regexCheck : List Char → Bool
  | ax :: sep :: rest =>
      sep == '_' && (ax == 'X' || ax == 'Y') && !rest.isEmpty && rest.all isKeyChar
  | _ => false

/-- Decides the spec's regular expression `^[A-Z0-9]+_(X|Y)$` on a
string. -/
def matchesSeriesRegex (s : String) : Bool := regexCheck s.data.reverse

/-- Database-access failure taxonomy (`mysql.connector.Error` as caught in
app.py lines 112, 152 and 180). -/
inductive DbError
  | connectionFailed (msg : String)
  | queryFailed (msg : String)
deriving DecidableEq

/-- Message carried by a database error. -/
def dbErrMsg : DbError → String
  | DbError.connectionFailed m => m
  | DbError.queryFailed m => m

/-- Connection descriptor built by `get_db_config` (app.py lines 33-60). -/
structure Config where
  host : Option String
  user : Option String
  password : Option String
  database : Option String
  connectTimeout : Nat
deriving DecidableEq

/-- The truthiness test `db_config.get("host")` of app.py lines 83, 123
and 164: Python treats both a missing key and an empty string as falsy. -/
def hasHost (c : Config) : Bool :=
  match c.host with
  | none => false
  | some h => h != ""

/-- A user-visible message emitted through the UI, one constructor per
`st.error` / `st.warning` call site relevant to the claims. -/
inductive Notice
  | errorConfigMissing
  | errorTisLoad (msg : String)
  | errorDeviceList (msg : String)
  | warnNoDevices
deriving DecidableEq

/-- Embedding of `load_data` (app.py lines 77-114): missing host emits a
visible error and yields an empty frame; a database error emits a visible
error and yields an empty frame; success yields the rows. The database
outcome for the requested device and date is passed in as `db`. -/
def load_data (cfg : Config) (deviceId : Nat) (startDate : String)
    (db : Except DbError (List TiltRow)) : List TiltRow × List Notice :=
  if hasHost cfg = false then ([], [Notice.errorConfigMissing])
  else
    match db with
    | Except.ok rows => (rows, [])
    | Except.error e => ([], [Notice.errorTisLoad (dbErrMsg e)])

/-- Embedding of `load_vgs_data` (app.py lines 117-155): missing host and
database errors both degrade silently to an empty frame, emitting no
user-visible message (the `st.error` call is commented out, line 154). -/
def load_vgs_data (cfg : Config) (deviceId : Nat) (startDate : String)
    (db : Except DbError (List VgsRow)) : List VgsRow × List Notice :=
  if hasHost cfg = false then ([], [])
  else
    match db with
    | Except.ok rows => (rows, [])
    | Except.error _ => ([], [])

/-- The data-loading step of `main` (app.py lines 225-227): both reading
fetches are issued independently for the selected device; the result is
the tilt frame, the VGS frame, and the user-visible messages emitted by
both loaders. -/
def loadDatasets (cfg : Config) (deviceId : Nat) (startDate : String)
    (tiltDb : Except DbError (List TiltRow)) (vgsDb : Except DbError (List VgsRow)) :
    List TiltRow × List VgsRow × List Notice :=
  ((load_data cfg deviceId startDate tiltDb).1,
   (load_vgs_data cfg deviceId startDate vgsDb).1,
   (load_data cfg deviceId startDate tiltDb).2 ++
     (load_vgs_data cfg deviceId startDate vgsDb).2)

/-- One row of the `devices` catalog: `id, uuid, sensor_id`
(app.py line 170). -/
structure DeviceRow where
  id : Nat
  uuid : String
  sensor_id : String
deriving DecidableEq, Inhabited

/-- Embedding of `get_device_ids` (app.py lines 158-182): the rows are
fetched once with `fetchall` and the three projection lists are built
from that one row list; missing host returns three empty lists silently,
a database error returns three empty lists after a visible error. -/
def get_device_ids (cfg : Config) (db : Except DbError (List DeviceRow)) :
    (List Nat × List String × List String) × List Notice :=
  if hasHost cfg = false then (([], [], []), [])
  else
    match db with
    | Except.ok rows =>
        ((rows.map DeviceRow.id, rows.map DeviceRow.uuid, rows.map DeviceRow.sensor_id), [])
    | Except.error e => (([], [], []), [Notice.errorDeviceList (dbErrMsg e)])

/-- The two reading fetches `main` can issue for the selected device
(app.py lines 226-227). -/
inductive FetchCall
  | tilt (deviceId : Nat)
  | vgs (deviceId : Nat)
deriving DecidableEq

/-- Control flow of `main` from the catalog fetch to the reading fetches
(app.py lines 194-227): an empty id list warns and returns before any
reading fetch; otherwise a device is selected (the selectbox choice is
modelled by `selIdx`, clamped to the list) and both reading fetches are
issued for it. -/
def mainRun (catalog : (List Nat × List String × List String) × List Notice)
    (selIdx : Nat) : List Notice × List FetchCall :=
  if catalog.1.1.isEmpty then (catalog.2 ++ [Notice.warnNoDevices], [])
  else
    (catalog.2,
     [FetchCall.tilt (catalog.1.1.getD (min selIdx (catalog.1.1.length - 1)) 0),
      FetchCall.vgs (catalog.1.1.getD (min selIdx (catalog.1.1.length - 1)) 0)])

/-- A stored cache entry: the produced value and its creation time. -/
structure CacheEntry (α : Type) where
  value : α
  createdAt : Nat
deriving DecidableEq

/-- Modelled from the spec: freshness test of the caching decorator's
entries (`st.cache_data`, whose implementation is not part of this
repository). An entry with no TTL never expires within a process run; an
entry with TTL `t` expires `t` seconds after creation. -/
def cacheFresh (ttl : Option Nat) (now createdAt : Nat) : Bool :=
  match ttl with
  | none => true
  | some t => decide (now < createdAt + t)

/-- Modelled from the spec: one keyed call through the caching decorator.
Returns the value, the cache entry for the key after the call, and
whether the underlying producer was invoked: a fresh entry is returned
as-is without invoking the producer, a miss or expired entry invokes the
producer and stores the result with a fresh creation time. -/
def cachedCall {α : Type} (ttl : Option Nat) (now : Nat) (producer : Unit → α)
    (state : Option (CacheEntry α)) : α × CacheEntry α × Bool :=
  match state with
  | some e =>
      if cacheFresh ttl now e.createdAt then (e.value, e, false)
      else (producer (), ⟨producer (), now⟩, true)
  | none => (producer (), ⟨producer (), now⟩, true)

/-- TTL of the tilt reading fetch: `@st.cache_data(ttl=60)`
(app.py line 77). -/
def load_data_ttl : Option Nat := some 60

/-- TTL of the secondary reading fetch: `@st.cache_data(ttl=60)`
(app.py line 117). -/
def load_vgs_data_ttl : Option Nat := some 60

/-- TTL of the device catalog fetch: `@st.cache_data` with no TTL
(app.py line 158), so entries never expire within a process run. -/
def get_device_ids_ttl : Option Nat := none

/-- Concrete connection descriptor used by witnesses. -/
def cfg0 : Config := ⟨some "localhost", some "u", some "p", some "db", 10⟩

/-- Concrete catalog row used by the catalog-shape witness. -/
def deviceRow0 : DeviceRow := ⟨1, "uuid-1", "1,2"⟩

/-- Concrete two-row tilt input used by the ordering counterexample. -/
def c2rows : List TiltRow :=
  [⟨"2025-08-07 00:00", "ti1", 1, 2⟩, ⟨"2025-08-07 01:00", "ti1", 11/10, 21/10⟩]

/-- Twelve distinct series keys, already in sorted order, used by the
wraparound scenario. -/
def keys12 : List String :=
  ["S01", "S02", "S03", "S04", "S05", "S06", "S07", "S08", "S09", "S10", "S11", "S12"]

/-! ## Helper lemmas -/

theorem string_data_append (a b : String) : (a ++ b).data = a.data ++ b.data := by
  cases a
  cases b
  rfl

theorem lexLe_total : ∀ as bs : List Char, lexLe as bs = true ∨ lexLe bs as = true
  | [], _ => Or.inl rfl
  | _ :: _, [] => Or.inr rfl
  | a :: as, b :: bs => by
    by_cases hab : a < b
    · left
      simp [lexLe, hab]
    · by_cases hba : b < a
      · right
        simp [lexLe, hba, hab]
      · rcases lexLe_total as bs with h | h
        · left
          simp [lexLe, hab, hba, h]
        · right
          simp [lexLe, hba, hab, h]

theorem lexLe_trans : ∀ as bs cs : List Char,
    lexLe as bs = true → lexLe bs cs = true → lexLe as cs = true
  | [], _, _, _, _ => rfl
  | _ :: _, [], _, h1, _ => by simp [lexLe] at h1
  | _ :: _, _ :: _, [], _, h2 => by simp [lexLe] at h2
  | a :: as, b :: bs, c :: cs, h1, h2 => by
    simp only [lexLe] at h1 h2 ⊢
    rcases lt_trichotomy a b with hab | hab | hab
    · rcases lt_trichotomy b c with hbc | hbc | hbc
      · simp [lt_trans hab hbc]
      · subst hbc
        simp [hab]
      · simp [hbc, lt_asymm hbc] at h2
    · subst hab
      rcases lt_trichotomy a c with hac | hac | hac
      · simp [hac]
      · subst hac
        simp only [lt_irrefl, if_false] at h1 h2 ⊢
        exact lexLe_trans as bs cs h1 h2
      · simp [hac, lt_asymm hac] at h2
    · simp [hab, lt_asymm hab] at h1

theorem lexLe_antisymm : ∀ as bs : List Char,
    lexLe as bs = true → lexLe bs as = true → as = bs
  | [], [], _, _ => rfl
  | [], _ :: _, _, h2 => by simp [lexLe] at h2
  | _ :: _, [], h1, _ => by simp [lexLe] at h1
  | a :: as, b :: bs, h1, h2 => by
    simp only [lexLe] at h1 h2
    rcases lt_trichotomy a b with hab | hab | hab
    · simp [hab, lt_asymm hab] at h2
    · subst hab
      simp only [lt_irrefl, if_false] at h1 h2
      rw [lexLe_antisymm as bs h1 h2]
    · simp [hab, lt_asymm hab] at h1

theorem strLeP_total : ∀ a b : String, strLeP a b ∨ strLeP b a :=
  fun a b => lexLe_total a.data b.data

theorem strLeP_trans : ∀ a b c : String, strLeP a b → strLeP b c → strLeP a c :=
  fun a b c => lexLe_trans a.data b.data c.data

theorem strLeP_antisymm : ∀ a b : String, strLeP a b → strLeP b a → a = b := by
  intro a b h1 h2
  cases a with
  | mk d1 =>
    cases b with
    | mk d2 => exact congrArg String.mk (lexLe_antisymm d1 d2 h1 h2)

theorem sortedUnique_sorted (l : List String) : List.Sorted strLeP (sortedUnique l) := by
  haveI : IsTotal String strLeP := ⟨strLeP_total⟩
  haveI : IsTrans String strLeP := ⟨strLeP_trans⟩
  exact List.sorted_insertionSort strLeP l.dedup

theorem sortedUnique_length (l : List String) :
    (sortedUnique l).length = l.dedup.length :=
  List.length_insertionSort strLeP l.dedup

theorem sortedUnique_eq_of_toFinset_eq (l1 l2 : List String)
    (h : l1.toFinset = l2.toFinset) : sortedUnique l1 = sortedUnique l2 := by
  haveI : IsTotal String strLeP := ⟨strLeP_total⟩
  haveI : IsTrans String strLeP := ⟨strLeP_trans⟩
  haveI : IsAntisymm String strLeP := ⟨strLeP_antisymm⟩
  have hperm : List.Perm l1.dedup l2.dedup := List.toFinset_eq_iff_perm_dedup.mp h
  exact List.eq_of_perm_of_sorted
    (((List.perm_insertionSort strLeP l1.dedup).trans hperm).trans
      (List.perm_insertionSort strLeP l2.dedup).symm)
    (sortedUnique_sorted l1) (sortedUnique_sorted l2)

theorem getD_map_range {β : Type} (f : Nat → β) (n i : Nat) (h : i < n) (d : β) :
    ((List.range n).map f).getD i d = f i := by
  rw [List.getD_eq_getElem?_getD, List.getElem?_map, List.getElem?_range h]
  rfl

theorem getD_map_of_lt {α β : Type} (f : α → β) (l : List α) (i : Nat)
    (hi : i < l.length) (d : β) (d' : α) :
    (l.map f).getD i d = f (l.getD i d') := by
  rw [List.getD_eq_getElem?_getD, List.getD_eq_getElem?_getD, List.getElem?_map,
      List.getElem?_eq_getElem hi]
  rfl

theorem assignMarkers_getD (keys : List String) (i : Nat)
    (hi : i < (sortedUnique keys).length) :
    (assignMarkers keys).getD i ("", "") =
      ((sortedUnique keys).getD i "", cycleMarker i) := by
  unfold assignMarkers
  exact getD_map_range _ _ i hi _

theorem marker_distinct : ∀ i j : Fin marker_shapes.length, i ≠ j →
    marker_shapes.getD i.1 "" ≠ marker_shapes.getD j.1 "" := by decide

theorem regexCheck_append (l : List Char) (hne : l ≠ [])
    (hchars : ∀ c ∈ l, isKeyChar c = true) (axc : Char)
    (hax : axc = 'X' ∨ axc = 'Y') :
    regexCheck (l ++ ['_', axc]).reverse = true := by
  rw [List.reverse_append]
  show regexCheck (axc :: '_' :: l.reverse) = true
  unfold regexCheck
  rcases hax with h | h <;> subst h <;>
    simp [List.all_eq_true, List.mem_reverse, hne] <;>
    exact hchars

theorem matches_key (u : String) (hne : u.data ≠ [])
    (hchars : ∀ c ∈ u.data, isKeyChar c = true) (ax : String)
    (hax : ax = "X" ∨ ax = "Y") :
    matchesSeriesRegex (u ++ "_" ++ ax) = true := by
  unfold matchesSeriesRegex
  rcases hax with h | h <;> subst h
  · rw [show (u ++ "_" ++ "X").data = u.data ++ ['_', 'X'] by
      rw [string_data_append, string_data_append, List.append_assoc]
      rfl]
    exact regexCheck_append u.data hne hchars 'X' (Or.inl rfl)
  · rw [show (u ++ "_" ++ "Y").data = u.data ++ ['_', 'Y'] by
      rw [string_data_append, string_data_append, List.append_assoc]
      rfl]
    exact regexCheck_append u.data hne hchars 'Y' (Or.inr rfl)

/-! ## Claims -/

/-- C1, as stated, is false on the code: the claim quantifies over every
non-empty sequence of raw tilt rows, but an instrument name containing a
character outside `[A-Za-z0-9]` (here `ti-1`) produces the series key
`TI-1_X`, which does not match `^[A-Z0-9]+_(X|Y)$`. -/
theorem C1_counterexample :
    ¬ (∀ rows : List TiltRow, rows ≠ [] →
        (reshapeTilt rows).length = 2 * rows.length ∧
        ∀ p ∈ reshapeTilt rows, matchesSeriesRegex p.series = true) := by
  intro h
  have h2 := (h [⟨"2025-08-07 00:00", "ti-1", 1, 2⟩] (by simp)).2
  have h3 := h2 ⟨"2025-08-07 00:00", "TI-1_X", 1⟩ (List.mem_cons_self _ _)
  exact absurd h3 (by decide)

/-- C1 (amended): for every non-empty sequence of raw tilt rows whose
instrument names are non-empty and consist of characters that uppercase
into `[A-Z0-9]`, the tilt reshape produces exactly twice as many series
points as input rows, and every output series key matches
`^[A-Z0-9]+_(X|Y)$`. -/
theorem C1_amended (rows : List TiltRow) (hne : rows ≠ [])
    (hname : ∀ r ∈ rows, r.name.data ≠ [] ∧
      ∀ c ∈ r.name.data, isKeyChar c.toUpper = true) :
    (reshapeTilt rows).length = 2 * rows.length ∧
    ∀ p ∈ reshapeTilt rows, matchesSeriesRegex p.series = true := by
  constructor
  · simp [reshapeTilt, meltTilt]
    omega
  · intro p hp
    simp only [reshapeTilt, meltTilt, List.map_append, List.map_map, List.mem_append,
      List.mem_map, Function.comp] at hp
    have key : ∀ r ∈ rows, (∀ c ∈ (strUpper r.name).data, isKeyChar c = true) ∧
        (strUpper r.name).data ≠ [] := by
      intro r hr
      constructor
      · intro c hc
        have hc' : c ∈ r.name.data.map Char.toUpper := hc
        rcases List.mem_map.mp hc' with ⟨c0, hc0, rfl⟩
        exact (hname r hr).2 c0 hc0
      · show r.name.data.map Char.toUpper ≠ []
        simp [(hname r hr).1]
    rcases hp with ⟨r, hr, rfl⟩ | ⟨r, hr, rfl⟩
    · exact matches_key _ ((key r hr).2) ((key r hr).1) "X" (Or.inl rfl)
    · exact matches_key _ ((key r hr).2) ((key r hr).1) "Y" (Or.inr rfl)

/-- C1 witness: the amended claim evaluated on one concrete row. -/
theorem C1_witness :
    (reshapeTilt [⟨"2025-08-07 00:00", "ti1", 1, 2⟩]).length =
        2 * ([⟨"2025-08-07 00:00", "ti1", 1, 2⟩] : List TiltRow).length ∧
    ∀ p ∈ reshapeTilt [⟨"2025-08-07 00:00", "ti1", 1, 2⟩],
      matchesSeriesRegex p.series = true :=
  C1_amended [⟨"2025-08-07 00:00", "ti1", 1, 2⟩] (by simp) (by decide)

/-- C2, as stated, is false on the code: `melt` emits declared-channel-major
order (all x points, then all y points), not row-major interleaved order.
On the two-row input `c2rows` the two orders differ. -/
theorem C2_counterexample : reshapeTilt c2rows ≠ reshapeTiltInterleaved c2rows := by
  decide

/-- C2 (amended): for every fixed input row order, the reshape emits its
points in declared-channel-major order: all x-channel points in input row
order, then all y-channel points in input row order (and for the
secondary kind all value1 points, then all value2 points). -/
theorem C2_amended (rows : List TiltRow) (vrows : List VgsRow) :
    reshapeTilt rows = reshapeTiltChannelMajor rows ∧
    reshapeVgs vrows = reshapeVgsChannelMajor vrows := by
  constructor
  · unfold reshapeTilt meltTilt reshapeTiltChannelMajor
    rw [List.map_append, List.map_map, List.map_map]
    rfl
  · unfold reshapeVgs meltVgs reshapeVgsChannelMajor
    rw [List.map_append, List.map_map, List.map_map]
    rfl

/-- C3: the concrete two-row tilt scenario yields exactly four series
points with keys TI1_X, TI1_X, TI1_Y, TI1_Y and values 1.0, 1.1, 2.0, 2.1
in declared-channel-major order. -/
theorem C3_scenario :
    reshapeTilt [⟨"2025-08-07 00:00", "ti1", 1, 2⟩, ⟨"2025-08-07 01:00", "ti1", 11/10, 21/10⟩] =
      [⟨"2025-08-07 00:00", "TI1_X", 1⟩, ⟨"2025-08-07 01:00", "TI1_X", 11/10⟩,
       ⟨"2025-08-07 00:00", "TI1_Y", 2⟩, ⟨"2025-08-07 01:00", "TI1_Y", 21/10⟩] := by
  rfl

/-- C4: marker assignment is deterministic: two key collections carrying
the same set of distinct series keys, in whatever presentation order,
receive an identical key-to-symbol mapping, because the distinct keys are
brought into sorted order before the cycling iterator is consumed. -/
theorem C4_deterministic (keys1 keys2 : List String)
    (h : keys1.toFinset = keys2.toFinset) :
    assignMarkers keys1 = assignMarkers keys2 := by
  unfold assignMarkers
  rw [sortedUnique_eq_of_toFinset_eq keys1 keys2 h]

/-- C4 witness: two presentations of the set containing TI1_X and TI1_Y. -/
theorem C4_witness :
    (["TI1_Y", "TI1_X"] : List String).toFinset =
        (["TI1_X", "TI1_Y", "TI1_X"] : List String).toFinset ∧
    assignMarkers ["TI1_Y", "TI1_X"] = assignMarkers ["TI1_X", "TI1_Y", "TI1_X"] :=
  ⟨by decide, C4_deterministic ["TI1_Y", "TI1_X"] ["TI1_X", "TI1_Y", "TI1_X"] (by decide)⟩

/-- C5: while the number of distinct series keys does not exceed the
palette size, the marker assignment is injective: entries of the
assignment with different keys carry different symbols. -/
theorem C5_injective (keys : List String)
    (h : keys.dedup.length ≤ marker_shapes.length) :
    ∀ p ∈ assignMarkers keys, ∀ q ∈ assignMarkers keys, p.1 ≠ q.1 → p.2 ≠ q.2 := by
  intro p hp q hq hpq
  unfold assignMarkers at hp hq
  rcases List.mem_map.mp hp with ⟨i, hi, rfl⟩
  rcases List.mem_map.mp hq with ⟨j, hj, rfl⟩
  rw [List.mem_range] at hi hj
  rw [sortedUnique_length] at hi hj
  have hi' : i < marker_shapes.length := lt_of_lt_of_le hi h
  have hj' : j < marker_shapes.length := lt_of_lt_of_le hj h
  have hij : i ≠ j := by
    intro e
    exact hpq (by rw [e])
  show cycleMarker i ≠ cycleMarker j
  unfold cycleMarker
  rw [Nat.mod_eq_of_lt hi', Nat.mod_eq_of_lt hj']
  exact marker_distinct ⟨i, hi'⟩ ⟨j, hj'⟩ (fun e => hij (congrArg Fin.val e))

/-- C5 witness: four distinct keys against the palette. -/
theorem C5_witness :
    (["TI1_Y", "TI1_X", "TI2_X", "TI2_Y"] : List String).dedup.length ≤
        marker_shapes.length ∧
    (∀ p ∈ assignMarkers ["TI1_Y", "TI1_X", "TI2_X", "TI2_Y"],
      ∀ q ∈ assignMarkers ["TI1_Y", "TI1_X", "TI2_X", "TI2_Y"],
        p.1 ≠ q.1 → p.2 ≠ q.2) :=
  ⟨by decide, C5_injective ["TI1_Y", "TI1_X", "TI2_X", "TI2_Y"] (by decide)⟩

/-- C6, as stated, is false on the code: the palette of
`get_marker_generator` holds eleven symbols, not ten, so with twelve
distinct series keys the 11th key in sorted order receives the palette's
11th symbol instead of reusing the 1st key's symbol. Refuted on twelve
concrete keys. -/
theorem C6_counterexample :
    ¬ (((assignMarkers keys12).getD 10 ("", "")).2 =
          ((assignMarkers keys12).getD 0 ("", "")).2 ∧
       ((assignMarkers keys12).getD 11 ("", "")).2 =
          ((assignMarkers keys12).getD 1 ("", "")).2) := by
  decide

/-- C6 (amended): the palette holds eleven symbols, and each of twelve
distinct series keys receives the palette symbol at its sorted position
modulo the palette size (cyclic wraparound, not an error): in particular
the 12th key reuses the symbol of the 1st key, while the 11th key
receives the palette's 11th symbol and reuses nothing — its symbol
differs from the symbol of every one of the ten keys before it. -/
theorem C6_amended (keys : List String) (h : keys.dedup.length = 12) :
    marker_shapes.length = 11 ∧
    (∀ i, i < 12 → ((assignMarkers keys).getD i ("", "")).2 =
        marker_shapes.getD (i % marker_shapes.length) "") ∧
    ((assignMarkers keys).getD 11 ("", "")).2 =
        ((assignMarkers keys).getD 0 ("", "")).2 ∧
    ((assignMarkers keys).getD 10 ("", "")).2 = marker_shapes.getD 10 "" ∧
    (∀ j, j < 10 → ((assignMarkers keys).getD 10 ("", "")).2 ≠
        ((assignMarkers keys).getD j ("", "")).2) := by
  have hL : marker_shapes.length = 11 := rfl
  have hlen : (sortedUnique keys).length = 12 := by
    rw [sortedUnique_length, h]
  refine ⟨rfl, ?_, ?_, ?_, ?_⟩
  · intro i hi
    rw [assignMarkers_getD keys i (by omega)]
    rfl
  · rw [assignMarkers_getD keys 11 (by omega), assignMarkers_getD keys 0 (by omega)]
    show cycleMarker 11 = cycleMarker 0
    decide
  · rw [assignMarkers_getD keys 10 (by omega)]
    show cycleMarker 10 = marker_shapes.getD 10 ""
    decide
  · intro j hj
    rw [assignMarkers_getD keys 10 (by omega), assignMarkers_getD keys j (by omega)]
    show cycleMarker 10 ≠ cycleMarker j
    unfold cycleMarker
    rw [show 10 % marker_shapes.length = 10 from rfl,
        Nat.mod_eq_of_lt (show j < marker_shapes.length by omega)]
    refine marker_distinct ⟨10, by omega⟩ ⟨j, by omega⟩ ?_
    intro e
    have e' : (10 : Nat) = j := congrArg Fin.val e
    omega

/-- C6 witness: the amended claim evaluated on twelve concrete keys. -/
theorem C6_witness :
    keys12.dedup.length = 12 ∧
    (marker_shapes.length = 11 ∧
     (∀ i, i < 12 → ((assignMarkers keys12).getD i ("", "")).2 =
        marker_shapes.getD (i % marker_shapes.length) "") ∧
     ((assignMarkers keys12).getD 11 ("", "")).2 =
        ((assignMarkers keys12).getD 0 ("", "")).2 ∧
     ((assignMarkers keys12).getD 10 ("", "")).2 = marker_shapes.getD 10 "" ∧
     (∀ j, j < 10 → ((assignMarkers keys12).getD 10 ("", "")).2 ≠
        ((assignMarkers keys12).getD j ("", "")).2)) :=
  ⟨by decide, C6_amended keys12 (by decide)⟩

/-- C7: for every configuration with a host, device id and start date,
when the secondary (VGS) fetch fails with a connection or query error it
returns an empty result set and emits no user-visible message, and the
tilt dataset of an independently successful primary fetch is unaffected:
it still carries exactly the fetched rows, with no message emitted, and
it is identical to what any other secondary outcome would have produced. -/
theorem C7_silent_secondary (cfg : Config) (deviceId : Nat) (startDate : String)
    (rows : List TiltRow) (e : DbError) (hhost : hasHost cfg = true) :
    load_vgs_data cfg deviceId startDate (Except.error e) = ([], []) ∧
    loadDatasets cfg deviceId startDate (Except.ok rows) (Except.error e) =
      (rows, [], []) ∧
    (∀ vgsDb, (loadDatasets cfg deviceId startDate (Except.ok rows) vgsDb).1 =
      (loadDatasets cfg deviceId startDate (Except.ok rows) (Except.error e)).1) := by
  refine ⟨?_, ?_, ?_⟩
  · simp [load_vgs_data, hhost]
  · simp [loadDatasets, load_data, load_vgs_data, hhost]
  · intro vgsDb
    simp [loadDatasets, load_data, load_vgs_data, hhost]

/-- C7 witness: a concrete host, one tilt row, and a connection failure of
the secondary fetch. -/
theorem C7_witness :
    hasHost ⟨some "localhost", some "u", some "p", some "db", 10⟩ = true ∧
    (load_vgs_data ⟨some "localhost", some "u", some "p", some "db", 10⟩ 1 "2025-08-07"
        (Except.error (DbError.connectionFailed "boom")) = ([], []) ∧
     loadDatasets ⟨some "localhost", some "u", some "p", some "db", 10⟩ 1 "2025-08-07"
        (Except.ok [⟨"2025-08-07 00:00", "ti1", 1, 2⟩])
        (Except.error (DbError.connectionFailed "boom")) =
          ([⟨"2025-08-07 00:00", "ti1", 1, 2⟩], [], []) ∧
     (∀ vgsDb, (loadDatasets ⟨some "localhost", some "u", some "p", some "db", 10⟩ 1
          "2025-08-07" (Except.ok [⟨"2025-08-07 00:00", "ti1", 1, 2⟩]) vgsDb).1 =
        (loadDatasets ⟨some "localhost", some "u", some "p", some "db", 10⟩ 1 "2025-08-07"
          (Except.ok [⟨"2025-08-07 00:00", "ti1", 1, 2⟩])
          (Except.error (DbError.connectionFailed "boom"))).1)) :=
  ⟨by decide,
   C7_silent_secondary ⟨some "localhost", some "u", some "p", some "db", 10⟩ 1 "2025-08-07"
     [⟨"2025-08-07 00:00", "ti1", 1, 2⟩] (DbError.connectionFailed "boom") (by decide)⟩

/-- C8: the reading fetches are cached with a 60-second TTL while the
device catalog is cached with no expiry; from an empty cache a first call
invokes the producer, a second call within the TTL does not invoke it
again and returns an equal value, a call at or after expiry invokes the
producer again, and the catalog entry is still served from cache at the
later time. -/
theorem C8_cache (α : Type) (t1 t2 t3 : Nat) (p : Unit → α)
    (h2 : t2 < t1 + 60) (h3 : t1 + 60 ≤ t3) :
    load_data_ttl = some 60 ∧ load_vgs_data_ttl = some 60 ∧ get_device_ids_ttl = none ∧
    (cachedCall load_data_ttl t1 p none).2.2 = true ∧
    (cachedCall load_data_ttl t2 p (some (cachedCall load_data_ttl t1 p none).2.1)).1 =
      (cachedCall load_data_ttl t1 p none).1 ∧
    (cachedCall load_data_ttl t2 p (some (cachedCall load_data_ttl t1 p none).2.1)).2.2 =
      false ∧
    (cachedCall load_data_ttl t3 p (some (cachedCall load_data_ttl t1 p none).2.1)).2.2 =
      true ∧
    (cachedCall get_device_ids_ttl t3 p
        (some (cachedCall get_device_ids_ttl t1 p none).2.1)).2.2 = false := by
  have h3' : ¬ t3 < t1 + 60 := Nat.not_lt.mpr h3
  refine ⟨rfl, rfl, rfl, rfl, ?_, ?_, ?_, ?_⟩ <;>
    simp [cachedCall, cacheFresh, load_data_ttl, get_device_ids_ttl, h2, h3']

/-- C8 witness: a first call at time 0, a hit at time 59, a refresh at
time 60, with a concrete producer. -/
theorem C8_witness :
    load_data_ttl = some 60 ∧ load_vgs_data_ttl = some 60 ∧ get_device_ids_ttl = none ∧
    (cachedCall load_data_ttl 0 (fun _ => (5 : Nat)) none).2.2 = true ∧
    (cachedCall load_data_ttl 59 (fun _ => (5 : Nat))
        (some (cachedCall load_data_ttl 0 (fun _ => (5 : Nat)) none).2.1)).1 =
      (cachedCall load_data_ttl 0 (fun _ => (5 : Nat)) none).1 ∧
    (cachedCall load_data_ttl 59 (fun _ => (5 : Nat))
        (some (cachedCall load_data_ttl 0 (fun _ => (5 : Nat)) none).2.1)).2.2 = false ∧
    (cachedCall load_data_ttl 60 (fun _ => (5 : Nat))
        (some (cachedCall load_data_ttl 0 (fun _ => (5 : Nat)) none).2.1)).2.2 = true ∧
    (cachedCall get_device_ids_ttl 60 (fun _ => (5 : Nat))
        (some (cachedCall get_device_ids_ttl 0 (fun _ => (5 : Nat)) none).2.1)).2.2 =
      false :=
  C8_cache Nat 0 59 60 (fun _ => (5 : Nat)) (by decide) (by decide)

/-- C9: when the device catalog yields an empty id list, `main` halts
before issuing any reading fetch — neither the tilt nor the secondary
fetch call is emitted — and reports the no-devices warning to the user. -/
theorem C9_empty_catalog (uuids sensorIds : List String) (notices : List Notice)
    (selIdx : Nat) :
    (mainRun (([], uuids, sensorIds), notices) selIdx).2 = [] ∧
    Notice.warnNoDevices ∈ (mainRun (([], uuids, sensorIds), notices) selIdx).1 := by
  constructor
  · simp [mainRun]
  · simp [mainRun]

/-- C9 witness: an empty catalog with no prior notices. -/
theorem C9_witness :
    (mainRun (([], [], []), []) 0).2 = [] ∧
    Notice.warnNoDevices ∈ (mainRun (([], [], []), []) 0).1 :=
  C9_empty_catalog [] [] [] 0

/-- C10: every call of the device-catalog fetch returns three lists of
equal length; on a successful fetch with a host the i-th elements of the
three lists are the three projections of the i-th catalog row; and on a
missing-host configuration or any database error it returns three empty
lists instead of raising. -/
theorem C10_catalog_shape (cfg : Config) (db : Except DbError (List DeviceRow)) :
    ((get_device_ids cfg db).1.1.length = (get_device_ids cfg db).1.2.1.length ∧
     (get_device_ids cfg db).1.1.length = (get_device_ids cfg db).1.2.2.length) ∧
    (∀ rows, db = Except.ok rows → hasHost cfg = true →
      ∀ i, i < rows.length →
        (get_device_ids cfg db).1.1.getD i 0 = (rows.getD i default).id ∧
        (get_device_ids cfg db).1.2.1.getD i "" = (rows.getD i default).uuid ∧
        (get_device_ids cfg db).1.2.2.getD i "" = (rows.getD i default).sensor_id) ∧
    (hasHost cfg = false → (get_device_ids cfg db).1 = ([], [], [])) ∧
    (∀ e, db = Except.error e → (get_device_ids cfg db).1 = ([], [], [])) := by
  refine ⟨?_, ?_, ?_, ?_⟩
  · cases hh : hasHost cfg <;> cases db <;> simp [get_device_ids, hh]
  · intro rows hdb hh i hi
    subst hdb
    simp only [get_device_ids, hh, Bool.true_eq_false, if_false]
    exact ⟨getD_map_of_lt _ rows i hi 0 default,
           getD_map_of_lt _ rows i hi "" default,
           getD_map_of_lt _ rows i hi "" default⟩
  · intro hh
    simp [get_device_ids, hh]
  · intro e hdb
    subst hdb
    cases hh : hasHost cfg <;> simp [get_device_ids, hh]

/-- C10 witness: the shape facts evaluated on a concrete configuration and
a one-row catalog. -/
theorem C10_witness :
    ((get_device_ids cfg0 (Except.ok [deviceRow0])).1.1.length =
        (get_device_ids cfg0 (Except.ok [deviceRow0])).1.2.1.length ∧
     (get_device_ids cfg0 (Except.ok [deviceRow0])).1.1.length =
        (get_device_ids cfg0 (Except.ok [deviceRow0])).1.2.2.length) ∧
    (∀ rows : List DeviceRow,
      (Except.ok [deviceRow0] : Except DbError (List DeviceRow)) = Except.ok rows →
      hasHost cfg0 = true →
      ∀ i, i < rows.length →
        (get_device_ids cfg0 (Except.ok [deviceRow0])).1.1.getD i 0 =
          (rows.getD i default).id ∧
        (get_device_ids cfg0 (Except.ok [deviceRow0])).1.2.1.getD i "" =
          (rows.getD i default).uuid ∧
        (get_device_ids cfg0 (Except.ok [deviceRow0])).1.2.2.getD i "" =
          (rows.getD i default).sensor_id) ∧
    (hasHost cfg0 = false →
      (get_device_ids cfg0 (Except.ok [deviceRow0])).1 = ([], [], [])) ∧
    (∀ e, (Except.ok [deviceRow0] : Except DbError (List DeviceRow)) = Except.error e →
      (get_device_ids cfg0 (Except.ok [deviceRow0])).1 = ([], [], [])) :=
  C10_catalog_shape cfg0 (Except.ok [deviceRow0])
